import Mathlib

/-!
Shallow embedding of the MensaTrain bot's booking logic (`mensatrain.py`).

The relational state (the `users`, `schedule` and `tickets` tables) is modelled as
lists of records; SQLAlchemy queries become list filters; `.one()` and
`.one_or_none()` become fallible projections returning `Except`.  Telegram plumbing,
the access-restriction decorator and free-text date parsing are collaborators: the
handlers take the effective user and the already-parsed argument payload directly.
-/

set_option autoImplicit false

namespace Mensatrain

/-- A calendar date, as produced by `datetime.date.today()`. -/
structure Date where
  year : Nat
  month : Nat
  day : Nat
deriving DecidableEq, Repr

/-- A timestamp as produced by `dateutil.parser.parse` (sub-minute precision is kept
down to seconds; nothing in the handlers inspects fractions of a second). -/
structure DateTime where
  year : Nat
  month : Nat
  day : Nat
  hour : Nat
  minute : Nat
  second : Nat
deriving DecidableEq, Repr

/-- `datetime.datetime.date()`. -/
def DateTime.toDate (d : DateTime) : Date := ⟨d.year, d.month, d.day⟩

/-- Strict order on calendar dates. -/
def dateLt (a b : Date) : Bool :=
  decide (a.year < b.year) ||
    (a.year == b.year &&
      (decide (a.month < b.month) || (a.month == b.month && decide (a.day < b.day))))

def isLeap (y : Nat) : Bool := (y % 4 == 0 && y % 100 != 0) || y % 400 == 0

def daysInMonth (y m : Nat) : Nat :=
  if m == 2 then (if isLeap y then 29 else 28)
  else if m == 4 || m == 6 || m == 9 || m == 11 then 30
  else 31

/-- `datetime.date.today() + datetime.timedelta(1)`. -/
def nextDay (d : Date) : Date :=
  if d.day < daysInMonth d.year d.month then ⟨d.year, d.month, d.day + 1⟩
  else if d.month < 12 then ⟨d.year, d.month + 1, 1⟩
  else ⟨d.year + 1, 1, 1⟩

/-- `ScheduleMap.date > today` as executed by the backing store: SQLite compares the
stored datetime string "YYYY-MM-DD HH:MM:SS" with the bound date string "YYYY-MM-DD"
lexicographically, so the comparison holds exactly when the datetime's calendar date
is greater than or equal to the bound date. -/
def dtAfterDate (dt : DateTime) (d : Date) : Bool :=
  dateLt d dt.toDate || dt.toDate == d

/-- `ScheduleMap.date < today + timedelta(1)` under the same string comparison. -/
def dtBeforeDate (dt : DateTime) (d : Date) : Bool :=
  dateLt dt.toDate d

/-- Order on timestamps, for `order_by(ScheduleMap.date)`. -/
def dtLe (a b : DateTime) : Bool :=
  if a.year != b.year then decide (a.year < b.year)
  else if a.month != b.month then decide (a.month < b.month)
  else if a.day != b.day then decide (a.day < b.day)
  else if a.hour != b.hour then decide (a.hour < b.hour)
  else if a.minute != b.minute then decide (a.minute < b.minute)
  else decide (a.second ≤ b.second)

/-- A row of the `schedule` table (`ScheduleMap`, `mensatrain.py` lines 35-44). -/
structure Schedule where
  id : Nat
  date : DateTime
  station : String
  owner : Nat
  valid : Bool
deriving DecidableEq, Repr

/-- A row of the `tickets` table (`TicketMap`, lines 47-57). -/
structure Ticket where
  id : Nat
  sid : Nat
  uid : Nat
  valid : Bool
deriving DecidableEq, Repr

/-- A row of the `users` table (`UserMap`, lines 60-67). -/
structure User where
  id : Nat
  tid : String
  username : String
  fullname : String
deriving DecidableEq, Repr

/-- The SQLite database, together with the autoincrement counters of the three
primary-key columns. -/
structure DB where
  users : List User
  schedule : List Schedule
  tickets : List Ticket
  nextUserId : Nat
  nextSchedId : Nat
  nextTicketId : Nat
deriving DecidableEq, Repr

/-- `update.effective_user`: the external identity presented with each request. -/
structure EffUser where
  tid : String
  username : String
  fullname : String
deriving DecidableEq, Repr

/-- Exceptions raised by SQLAlchemy result projections. -/
inductive DBError
  | noResultFound
  | multipleResultsFound
deriving DecidableEq, Repr

/-- `query.one()`. -/
def query_one {α : Type} (l : List α) : Except DBError α :=
  match l with
  | [a] => .ok a
  | [] => .error .noResultFound
  | _ => .error .multipleResultsFound

/-- `query.one_or_none()`. -/
def one_or_none {α : Type} (l : List α) : Except DBError (Option α) :=
  match l with
  | [] => .ok none
  | [a] => .ok (some a)
  | _ => .error .multipleResultsFound

/-- The failure messages of `MensaTrainBot.parse_args`. -/
inductive PErr
  | notEnoughArgs
  | invalidDate
  | outOfRange
  | outsideHours
deriving DecidableEq, Repr

/-- Result of `MensaTrainBot.parse_args`: either `(None, message)` or
`(date, args[1])`. -/
inductive ParseOut
  | failure (e : PErr)
  | success (d : DateTime) (station : String)
deriving DecidableEq, Repr

/-- Handler argument payload.  `none` models a missing or too-short argument list
(the code folds both into "Not enough arguments"); the first component of the pair
models the `dateutil.parser.parse` outcome on `args[0]` (a collaborator: `none` is a
parse failure, `some d` the parsed timestamp); the second component is `args[1]`. -/
abbrev Args : Type := Option (Option DateTime × String)

/-- `MensaTrainBot.parse_args` (lines 114-133): same-day check first, then the
booking-hours check rejecting when `hour > 14`, or `hour == 14 and minute > 30`, or
`hour < 11`. -/
def parse_args (today : Date) (args : Args) : ParseOut :=
  match args with
  | none => .failure .notEnoughArgs
  | some (none, _) => .failure .invalidDate
  | some (some d, st) =>
    if !(d.toDate == today) then .failure .outOfRange
    else if decide (14 < d.hour) || (d.hour == 14 && decide (30 < d.minute)) ||
        decide (d.hour < 11) then .failure .outsideHours
    else .success d st

/-- `session.query(UserMap).filter_by(tid=user_id)`. -/
def userRows (db : DB) (tid : String) : List User :=
  db.users.filter (fun u => u.tid == tid)

/-- `MensaTrainBot.get_user` (lines 135-147): look the user up by the external id,
insert a fresh row on first contact, re-run the query, and project with `.one()`. -/
def get_user (db : DB) (eff : EffUser) : Except DBError (User × DB) :=
  if (userRows db eff.tid).length == 0 then
    let nu : User := ⟨db.nextUserId, eff.tid, eff.username, eff.fullname⟩
    let db1 : DB := { db with users := db.users ++ [nu], nextUserId := db.nextUserId + 1 }
    match query_one (userRows db1 eff.tid) with
    | .ok u => .ok (u, db1)
    | .error e => .error e
  else
    match query_one (userRows db eff.tid) with
    | .ok u => .ok (u, db)
    | .error e => .error e

/-- The literal Python expression `TicketMap.valid is True` at line 164: an identity
test between the column object and the constant `True`, evaluated by Python while the
query is being built; it yields `False`, and SQLAlchemy then renders that boolean
constant as the SQL literal false inside the WHERE clause. -/
def ticketValidIsTrue : Bool := false

/-- The same slip at line 182, `ScheduleMap.valid is True`. -/
def scheduleValidIsTrue : Bool := false

/-- `MensaTrainBot.get_user_ticket` (lines 160-169): the user's tickets joined to a
schedule row of the current day, under the constant-false `valid is True` criterion,
projected with `.one_or_none()`. -/
def get_user_ticket (today : Date) (eff : EffUser) (db : DB) :
    Except DBError (Option Ticket × DB) :=
  match get_user db eff with
  | .error e => .error e
  | .ok (user, db1) =>
    let rows := db1.tickets.filter (fun t =>
      ticketValidIsTrue && t.uid == user.id &&
        db1.schedule.any (fun j =>
          j.id == t.sid && dtAfterDate j.date today && dtBeforeDate j.date (nextDay today)))
    match one_or_none rows with
    | .error e => .error e
    | .ok o => .ok (o, db1)

/-- One row of the table rendered by `/schedule` (lines 187-193). -/
structure ScheduleRow where
  id : Nat
  depTime : String
  station : String
  passengers : String
deriving DecidableEq, Repr

def insertByDate (j : Schedule) : List Schedule → List Schedule
  | [] => [j]
  | k :: rest => if dtLe j.date k.date then j :: k :: rest else k :: insertByDate j rest

/-- `order_by(ScheduleMap.date)` ascending. -/
def sortByDate (l : List Schedule) : List Schedule :=
  l.foldr insertByDate []

/-- The markdown user link assembled at lines 189-191. -/
def userLink (u : User) : String :=
  "[" ++ u.fullname ++ "](tg://user?id=" ++ u.tid ++ ")"

/-- `MensaTrainBot.get_trains_today` (lines 176-194).  The journeys query carries the
constant-false `ScheduleMap.valid is True` criterion; the per-journey participants
query uses the correct `TicketMap.valid == True` comparison and joins `UserMap`. -/
def get_trains_today (today : Date) (db : DB) : List ScheduleRow :=
  let journeys := sortByDate (db.schedule.filter (fun j =>
    dtAfterDate j.date today && dtBeforeDate j.date (nextDay today) && scheduleValidIsTrue))
  journeys.map (fun j =>
    let participants := (db.tickets.filter (fun t => t.sid == j.id && t.valid == true)).filterMap
      (fun t => (db.users.find? (fun u => u.id == t.uid)).map userLink)
    { id := j.id,
      depTime := toString j.date.hour ++ ":" ++ toString j.date.minute,
      station := j.station,
      passengers := String.intercalate ", " participants })

/-- The user-visible outcome of a booking handler, one constructor per
`reply_text` call site. -/
inductive Reply
  | parseFailed (e : PErr)
  | alreadyRegistered
  | selectTrain (keyboard : List String)
  | noValidJourney
  | duplicateJourneys
  | ticketBought (station : String) (hour minute : Nat)
  | noTicketToRevoke
  | revoked (hour minute : Nat) (station : String)
deriving DecidableEq, Repr

/-- `session.query(ScheduleMap).filter_by(date=args[0], station=args[1])`
(lines 237-238): an exact-match lookup, with no restriction on `valid`. -/
def journeysFor (sched : List Schedule) (d : DateTime) (st : String) : List Schedule :=
  sched.filter (fun j => j.date == d && j.station == st)

/-- `MensaTrainBot.ticket` (lines 212-257). -/
def ticket (today : Date) (eff : EffUser) (args : Args) (db : DB) :
    Except DBError (Reply × DB) :=
  match get_user_ticket today eff db with
  | .error e => .error e
  | .ok (some _, db1) => .ok (.alreadyRegistered, db1)
  | .ok (none, db1) =>
    match parse_args today args with
    | .failure _ =>
      let keyboard := (get_trains_today today db1).map
        (fun r => "/ticket " ++ r.depTime ++ " " ++ r.station)
      .ok (.selectTrain keyboard, db1)
    | .success d st =>
      let journeys := journeysFor db1.schedule d st
      if journeys.length == 0 then .ok (.noValidJourney, db1)
      else if 1 < journeys.length then .ok (.duplicateJourneys, db1)
      else
        match get_user db1 eff with
        | .error e => .error e
        | .ok (user, db2) =>
          match query_one journeys with
          | .error e => .error e
          | .ok j =>
            let db3 : DB := { db2 with
              tickets := db2.tickets ++ [⟨db2.nextTicketId, j.id, user.id, true⟩],
              nextTicketId := db2.nextTicketId + 1 }
            .ok (.ticketBought j.station j.date.hour j.date.minute, db3)

/-- `MensaTrainBot.revoke` (lines 259-275).  The `ticket.journey` relationship access
in the confirmation message is the lookup of the schedule row referenced by `sid`. -/
def revoke (today : Date) (eff : EffUser) (db : DB) : Except DBError (Reply × DB) :=
  match get_user_ticket today eff db with
  | .error e => .error e
  | .ok (none, db1) => .ok (.noTicketToRevoke, db1)
  | .ok (some ut, db1) =>
    match query_one (db1.tickets.filter (fun t => t.id == ut.id)) with
    | .error e => .error e
    | .ok tk =>
      match query_one (db1.schedule.filter (fun s => s.id == tk.sid)) with
      | .error e => .error e
      | .ok j =>
        let newTickets := db1.tickets.map
          (fun t => if t.id == tk.id then { t with valid := false } else t)
        let db2 : DB := { db1 with tickets := newTickets }
        .ok (.revoked j.date.hour j.date.minute j.station, db2)

/-- `MensaTrainBot.add_departure` (lines 278-290).  After the insert the handler calls
`self.ticket(bot, update, args=args)` with the already parsed `(datetime, station)`
tuple; `ticket` re-parses that tuple through `str` and `dateutil.parser.parse`, a
round trip returning the same timestamp, so the nested call receives the same
argument payload. -/
def add_departure (today : Date) (eff : EffUser) (args : Args) (db : DB) :
    Except DBError (Reply × DB) :=
  match parse_args today args with
  | .failure e => .ok (.parseFailed e, db)
  | .success d st =>
    match get_user db eff with
    | .error e => .error e
    | .ok (user, db1) =>
      let db2 : DB := { db1 with
        schedule := db1.schedule ++ [⟨db1.nextSchedId, d, st, user.id, true⟩],
        nextSchedId := db1.nextSchedId + 1 }
      ticket today eff args db2

/-- The booking-window policy as worded in the specification: lower bound on the hour
only, upper bound compared hour then minute. -/
def windowAccepts (startHour endHour endMinute : Nat) (d : DateTime) : Bool :=
  decide (startHour ≤ d.hour) &&
    (decide (d.hour < endHour) || (d.hour == endHour && decide (d.minute ≤ endMinute)))

/-- The specification's notion of the user's active tickets of the current calendar
day: tickets with `valid = true` owned by the user and attached to a departure whose
timestamp falls on `today`. -/
def activeTicketsToday (today : Date) (db : DB) (uid : Nat) : List Ticket :=
  db.tickets.filter (fun t =>
    t.valid && t.uid == uid &&
      db.schedule.any (fun j => j.id == t.sid && j.date.toDate == today))

/-- Reply component of a handler outcome, for concrete evaluation. -/
def replyOf (r : Except DBError (Reply × DB)) : Option Reply :=
  match r with
  | .ok (rep, _) => some rep
  | .error _ => none

/-- Database component of a handler outcome; a database error keeps the given
fallback state. -/
def dbAfter (r : Except DBError (Reply × DB)) (fallback : DB) : DB :=
  match r with
  | .ok (_, db) => db
  | .error _ => fallback

/-! Helper lemmas shared by the claim theorems. -/

/-- Characterisation of `get_user` on any state holding at most one row for the
external id: it succeeds, returns a row carrying that id, touches nothing outside the
`users` table, creates the row exactly on first contact, and is the identity on the
state when the row already exists. -/
theorem get_user_spec (db : DB) (eff : EffUser)
    (h : (userRows db eff.tid).length ≤ 1) :
    ∃ u db', get_user db eff = .ok (u, db') ∧ u.tid = eff.tid ∧
      userRows db' eff.tid = [u] ∧
      db'.schedule = db.schedule ∧ db'.tickets = db.tickets ∧
      db'.nextSchedId = db.nextSchedId ∧ db'.nextTicketId = db.nextTicketId ∧
      (userRows db eff.tid = [] →
        db'.users = db.users ++ [⟨db.nextUserId, eff.tid, eff.username, eff.fullname⟩]) ∧
      (∀ v, userRows db eff.tid = [v] → u = v ∧ db' = db) := by
  cases hl : userRows db eff.tid with
  | nil =>
    refine ⟨⟨db.nextUserId, eff.tid, eff.username, eff.fullname⟩,
      { db with users := db.users ++ [⟨db.nextUserId, eff.tid, eff.username, eff.fullname⟩],
                nextUserId := db.nextUserId + 1 },
      ?_, rfl, ?_, rfl, rfl, rfl, rfl, fun _ => rfl,
      fun v hv => absurd hv (by simp)⟩
    · unfold get_user
      rw [hl]
      have hq : userRows { db with
          users := db.users ++ [⟨db.nextUserId, eff.tid, eff.username, eff.fullname⟩],
          nextUserId := db.nextUserId + 1 } eff.tid =
          [⟨db.nextUserId, eff.tid, eff.username, eff.fullname⟩] := by
        unfold userRows at hl ⊢
        simp [List.filter_append, hl]
      simp [hq, query_one]
    · unfold userRows at hl ⊢
      simp [List.filter_append, hl]
  | cons v tl =>
    cases tl with
    | cons w rest =>
      rw [hl] at h
      simp [List.length_cons] at h
    | nil =>
      have hv : v.tid = eff.tid := by
        have hm : v ∈ userRows db eff.tid := by rw [hl]; exact List.mem_singleton_self v
        unfold userRows at hm
        simpa using (List.mem_filter.mp hm).2
      refine ⟨v, db, ?_, hv, hl, rfl, rfl, rfl, rfl,
        fun hh => absurd hh (by simp),
        fun v' hv' => ⟨by simpa using hv', rfl⟩⟩
      unfold get_user
      rw [hl]
      simp [query_one]

/-- On a state already holding exactly one row for the external id, `get_user` is a
pure lookup: it returns that row and leaves the state untouched. -/
theorem get_user_fixpoint (db : DB) (eff : EffUser) (u : User)
    (hrows : userRows db eff.tid = [u]) : get_user db eff = .ok (u, db) := by
  obtain ⟨u2, db2, hg2, _, _, _, _, _, _, _, hsame2⟩ :=
    get_user_spec db eff (by rw [hrows]; simp)
  obtain ⟨he, hd⟩ := hsame2 u hrows
  rw [hg2, he, hd]

/-- Under the `TicketMap.valid is True` slip, `get_user_ticket` returns `None`
whenever user resolution succeeds: the WHERE clause contains a constant-false
conjunct. -/
theorem get_user_ticket_run (today : Date) (eff : EffUser) (db : DB) (u : User)
    (db' : DB) (hg : get_user db eff = .ok (u, db')) :
    get_user_ticket today eff db = .ok (none, db') := by
  unfold get_user_ticket
  rw [hg]
  simp [ticketValidIsTrue, one_or_none]

/-- With parseable arguments, `add_departure` resolves the user, inserts the schedule
row unconditionally, and delegates to `ticket`. -/
theorem add_departure_run (today : Date) (eff : EffUser) (d : DateTime) (st : String)
    (db : DB) (u : User) (db1 : DB)
    (hp : parse_args today (some (some d, st)) = .success d st)
    (hg : get_user db eff = .ok (u, db1)) :
    add_departure today eff (some (some d, st)) db =
      ticket today eff (some (some d, st))
        { db1 with schedule := db1.schedule ++ [⟨db1.nextSchedId, d, st, u.id, true⟩],
                   nextSchedId := db1.nextSchedId + 1 } := by
  unfold add_departure
  rw [hp, hg]

/-- Run of `ticket` with explicit, parseable arguments on a state holding at most one
user row for the external id: the already-booked gate never fires, and the outcome is
decided by the number of schedule rows exactly matching `(date, station)`. -/
theorem ticket_run (today : Date) (eff : EffUser) (d : DateTime) (st : String)
    (db : DB) (hu : (userRows db eff.tid).length ≤ 1)
    (hp : parse_args today (some (some d, st)) = .success d st) :
    ∃ u db', get_user db eff = .ok (u, db') ∧ u.tid = eff.tid ∧
      db'.schedule = db.schedule ∧ db'.tickets = db.tickets ∧
      db'.nextSchedId = db.nextSchedId ∧ db'.nextTicketId = db.nextTicketId ∧
      (journeysFor db.schedule d st = [] →
        ticket today eff (some (some d, st)) db = .ok (.noValidJourney, db')) ∧
      (1 < (journeysFor db.schedule d st).length →
        ticket today eff (some (some d, st)) db = .ok (.duplicateJourneys, db')) ∧
      (∀ j, journeysFor db.schedule d st = [j] →
        ticket today eff (some (some d, st)) db =
          .ok (.ticketBought j.station j.date.hour j.date.minute,
               { db' with tickets := db'.tickets ++ [⟨db'.nextTicketId, j.id, u.id, true⟩],
                          nextTicketId := db'.nextTicketId + 1 })) := by
  obtain ⟨u, db', hg, htid, hrows, hsch, htk, hns, hnt, hcre, hsame⟩ :=
    get_user_spec db eff hu
  have hgt := get_user_ticket_run today eff db u db' hg
  have hg' : get_user db' eff = .ok (u, db') := get_user_fixpoint db' eff u hrows
  refine ⟨u, db', hg, htid, hsch, htk, hns, hnt, ?_, ?_, ?_⟩
  · intro hj
    have hj' : journeysFor db'.schedule d st = [] := by rw [hsch]; exact hj
    simp [ticket, hgt, hp, hj']
  · intro hj
    have h0 : ((journeysFor db.schedule d st).length == 0) = false := by
      simp only [beq_eq_false_iff_ne, ne_eq]
      omega
    simp [ticket, hgt, hp, hsch, h0, hj]
  · intro j hj
    have hj' : journeysFor db'.schedule d st = [j] := by rw [hsch]; exact hj
    simp [ticket, hgt, hp, hj', hg', query_one]

/-- C9: user resolution is idempotent.  On any state holding at most one row for the
external id, `get_user` succeeds with a row carrying that id; on first contact it
appends a row built from the display-name hint, otherwise it returns the existing row
and leaves the state unchanged; afterwards exactly one row carries the id and every
further sequential call returns the same row on the same state. -/
theorem get_user_idempotent (db : DB) (eff : EffUser)
    (hu : (userRows db eff.tid).length ≤ 1) :
    ∃ u db', get_user db eff = .ok (u, db') ∧ u.tid = eff.tid ∧
      userRows db' eff.tid = [u] ∧ get_user db' eff = .ok (u, db') ∧
      (userRows db eff.tid = [] →
        db'.users = db.users ++ [⟨db.nextUserId, eff.tid, eff.username, eff.fullname⟩]) ∧
      (∀ v, userRows db eff.tid = [v] → u = v ∧ db' = db) := by
  obtain ⟨u, db', hg, htid, hrows, _, _, _, _, hcre, hsame⟩ := get_user_spec db eff hu
  exact ⟨u, db', hg, htid, hrows, get_user_fixpoint db' eff u hrows, hcre, hsame⟩

/-- C10: with explicit arguments that pass validation, when more than one schedule
row exactly matches the requested `(date, station)` pair, `ticket` replies with the
duplicate-journeys error and changes neither the tickets table nor the schedule. -/
theorem ticket_duplicate_journeys_rejected (today : Date) (eff : EffUser)
    (d : DateTime) (st : String) (db : DB)
    (hu : (userRows db eff.tid).length ≤ 1)
    (hp : parse_args today (some (some d, st)) = .success d st)
    (hd : 1 < (journeysFor db.schedule d st).length) :
    ∃ db', ticket today eff (some (some d, st)) db = .ok (.duplicateJourneys, db') ∧
      db'.tickets = db.tickets ∧ db'.schedule = db.schedule := by
  obtain ⟨u, db', _, _, hsch, htk, _, _, _, hdup, _⟩ := ticket_run today eff d st db hu hp
  exact ⟨db', hdup hd, htk, hsch⟩

/-- C1 (amended): `add_departure` performs no duplicate check.  Even when a schedule
row with the same `(date, station)` pair already exists, the handler inserts a second
row with that pair; the duplicate is surfaced only by the nested auto-reservation
step, which replies with the duplicate-journeys error, and no ticket is issued. -/
theorem add_departure_duplicate_slot_behavior (today : Date) (eff : EffUser)
    (d : DateTime) (st : String) (db : DB)
    (hu : (userRows db eff.tid).length ≤ 1)
    (hp : parse_args today (some (some d, st)) = .success d st)
    (hdup : journeysFor db.schedule d st ≠ []) :
    ∃ (u : User) (db' : DB), get_user db eff = .ok (u, db') ∧
      db'.tickets = db.tickets ∧ db'.schedule = db.schedule ∧
      add_departure today eff (some (some d, st)) db =
        .ok (.duplicateJourneys,
          { db' with schedule := db'.schedule ++ [⟨db'.nextSchedId, d, st, u.id, true⟩],
                     nextSchedId := db'.nextSchedId + 1 }) := by
  obtain ⟨u, db', hg, htid, hrows, hsch, htk, hns, hnt, hcre, hsame⟩ :=
    get_user_spec db eff hu
  refine ⟨u, db', hg, htk, hsch, ?_⟩
  rw [add_departure_run today eff d st db u db' hp hg]
  have hu2 : (userRows { db' with
      schedule := db'.schedule ++ [⟨db'.nextSchedId, d, st, u.id, true⟩],
      nextSchedId := db'.nextSchedId + 1 } eff.tid).length ≤ 1 := by
    show (userRows db' eff.tid).length ≤ 1
    rw [hrows]; simp
  obtain ⟨u2, db2, hg2, _, _, _, _, _, _, hdup2, _⟩ :=
    ticket_run today eff d st
      { db' with schedule := db'.schedule ++ [⟨db'.nextSchedId, d, st, u.id, true⟩],
                 nextSchedId := db'.nextSchedId + 1 } hu2 hp
  have hgfix : get_user { db' with
      schedule := db'.schedule ++ [⟨db'.nextSchedId, d, st, u.id, true⟩],
      nextSchedId := db'.nextSchedId + 1 } eff = .ok (u, { db' with
      schedule := db'.schedule ++ [⟨db'.nextSchedId, d, st, u.id, true⟩],
      nextSchedId := db'.nextSchedId + 1 }) :=
    get_user_fixpoint _ eff u hrows
  obtain ⟨h1, h2⟩ : u2 = u ∧ db2 = { db' with
      schedule := db'.schedule ++ [⟨db'.nextSchedId, d, st, u.id, true⟩],
      nextSchedId := db'.nextSchedId + 1 } := by
    simpa using hg2.symm.trans hgfix
  rw [h2] at hdup2
  apply hdup2
  show 1 < (journeysFor (db'.schedule ++ [⟨db'.nextSchedId, d, st, u.id, true⟩]) d st).length
  unfold journeysFor at hdup ⊢
  rw [List.filter_append, hsch]
  have hlen : 0 < (db.schedule.filter (fun j => j.date == d && j.station == st)).length :=
    List.length_pos.mpr hdup
  simp [List.length_append]
  omega

/-- C8 (amended): when the proposed `(date, station)` passes validation and no
schedule row with that pair exists yet, `add_departure` inserts the departure and the
nested `ticket` call auto-reserves the proposer: the final state carries a fresh
active ticket owned by the resolved user and referencing the new departure row. -/
theorem propose_fresh_slot_auto_reserves (today : Date) (eff : EffUser)
    (d : DateTime) (st : String) (db : DB)
    (hu : (userRows db eff.tid).length ≤ 1)
    (hp : parse_args today (some (some d, st)) = .success d st)
    (hfresh : journeysFor db.schedule d st = []) :
    ∃ (u : User) (db' : DB), get_user db eff = .ok (u, db') ∧ u.tid = eff.tid ∧
      db'.tickets = db.tickets ∧ db'.nextSchedId = db.nextSchedId ∧
      db'.nextTicketId = db.nextTicketId ∧
      add_departure today eff (some (some d, st)) db =
        .ok (.ticketBought st d.hour d.minute,
          { db' with
            schedule := db'.schedule ++ [⟨db'.nextSchedId, d, st, u.id, true⟩],
            nextSchedId := db'.nextSchedId + 1,
            tickets := db'.tickets ++ [⟨db'.nextTicketId, db'.nextSchedId, u.id, true⟩],
            nextTicketId := db'.nextTicketId + 1 }) := by
  obtain ⟨u, db', hg, htid, hrows, hsch, htk, hns, hnt, hcre, hsame⟩ :=
    get_user_spec db eff hu
  refine ⟨u, db', hg, htid, htk, hns, hnt, ?_⟩
  rw [add_departure_run today eff d st db u db' hp hg]
  have hu2 : (userRows { db' with
      schedule := db'.schedule ++ [⟨db'.nextSchedId, d, st, u.id, true⟩],
      nextSchedId := db'.nextSchedId + 1 } eff.tid).length ≤ 1 := by
    show (userRows db' eff.tid).length ≤ 1
    rw [hrows]; simp
  obtain ⟨u2, db2, hg2, _, _, _, _, _, _, _, hsingle⟩ :=
    ticket_run today eff d st
      { db' with schedule := db'.schedule ++ [⟨db'.nextSchedId, d, st, u.id, true⟩],
                 nextSchedId := db'.nextSchedId + 1 } hu2 hp
  have hgfix : get_user { db' with
      schedule := db'.schedule ++ [⟨db'.nextSchedId, d, st, u.id, true⟩],
      nextSchedId := db'.nextSchedId + 1 } eff = .ok (u, { db' with
      schedule := db'.schedule ++ [⟨db'.nextSchedId, d, st, u.id, true⟩],
      nextSchedId := db'.nextSchedId + 1 }) :=
    get_user_fixpoint _ eff u hrows
  obtain ⟨h1, h2⟩ : u2 = u ∧ db2 = { db' with
      schedule := db'.schedule ++ [⟨db'.nextSchedId, d, st, u.id, true⟩],
      nextSchedId := db'.nextSchedId + 1 } := by
    simpa using hg2.symm.trans hgfix
  rw [h1, h2] at hsingle
  have hj : journeysFor (db'.schedule ++ [⟨db'.nextSchedId, d, st, u.id, true⟩]) d st =
      [⟨db'.nextSchedId, d, st, u.id, true⟩] := by
    unfold journeysFor at hfresh ⊢
    rw [List.filter_append, hsch, hfresh]
    simp
  exact hsingle ⟨db'.nextSchedId, d, st, u.id, true⟩ hj

/-- C3: with explicit arguments, window validation accepts exactly the timestamps on
today's calendar date whose clock time lies in the 11:00-14:30 window compared hour
then minute; a same-day time outside the window is rejected with the booking-hours
message, and a time on another calendar day is rejected with the same-day message
even when its clock time lies inside the window. -/
theorem parse_args_window_rules (today : Date) (d : DateTime) (st : String) :
    (parse_args today (some (some d, st)) = .success d st ↔
      (d.toDate = today ∧ windowAccepts 11 14 30 d = true)) ∧
    (d.toDate = today → windowAccepts 11 14 30 d = false →
      parse_args today (some (some d, st)) = .failure .outsideHours) ∧
    (d.toDate ≠ today → parse_args today (some (some d, st)) = .failure .outOfRange) := by
  by_cases hd : d.toDate = today
  · have hbeq : (d.toDate == today) = true := by simp [hd]
    by_cases hw : 14 < d.hour ∨ (d.hour = 14 ∧ 30 < d.minute) ∨ d.hour < 11
    · have hC : (decide (14 < d.hour) || (d.hour == 14 && decide (30 < d.minute)) ||
          decide (d.hour < 11)) = true := by
        simp only [Bool.or_eq_true, Bool.and_eq_true, decide_eq_true_eq, beq_iff_eq]
        omega
      have hW : windowAccepts 11 14 30 d = false := by
        rw [Bool.eq_false_iff]
        intro hWt
        simp only [windowAccepts, Bool.or_eq_true, Bool.and_eq_true, decide_eq_true_eq,
          beq_iff_eq] at hWt
        omega
      refine ⟨?_, fun _ _ => ?_, fun h => absurd hd h⟩
      · simp [parse_args, hbeq, hC, hW]
      · simp [parse_args, hbeq, hC]
    · have hC : (decide (14 < d.hour) || (d.hour == 14 && decide (30 < d.minute)) ||
          decide (d.hour < 11)) = false := by
        rw [Bool.eq_false_iff]
        intro hCt
        simp only [Bool.or_eq_true, Bool.and_eq_true, decide_eq_true_eq, beq_iff_eq] at hCt
        omega
      have hW : windowAccepts 11 14 30 d = true := by
        simp only [windowAccepts, Bool.or_eq_true, Bool.and_eq_true, decide_eq_true_eq,
          beq_iff_eq]
        omega
      refine ⟨?_, fun _ hWf => ?_, fun h => absurd hd h⟩
      · simp [parse_args, hbeq, hC, hd, hW]
      · rw [hW] at hWf
        cases hWf
  · have hbeq : (d.toDate == today) = false := by simp [hd]
    refine ⟨?_, fun h => absurd h hd, fun _ => ?_⟩
    · simp [parse_args, hbeq, hd]
    · simp [parse_args, hbeq]

/-- C7: under the constant-false `ScheduleMap.valid is True` criterion the schedule
listing is empty on every state, including the exhibited state that holds an active
departure whose timestamp falls on the current calendar day. -/
theorem schedule_listing_always_empty :
    (∀ (today : Date) (db : DB), get_trains_today today db = []) ∧
    (let dbx : DB := ⟨[⟨1, "7", "alice", "Alice Ant"⟩],
        [⟨1, ⟨2026, 10, 12, 12, 0, 0⟩, "Central", 1, true⟩], [], 2, 2, 1⟩;
      dbx.schedule.all (fun j => j.valid && j.date.toDate == (⟨2026, 10, 12⟩ : Date)) = true ∧
      dbx.schedule ≠ [] ∧ get_trains_today ⟨2026, 10, 12⟩ dbx = []) := by
  constructor
  · intro today db
    unfold get_trains_today
    have hnil : db.schedule.filter (fun j =>
        dtAfterDate j.date today && dtBeforeDate j.date (nextDay today) &&
          scheduleValidIsTrue) = [] := by
      simp [scheduleValidIsTrue]
    rw [hnil]
    rfl
  · exact ⟨by decide, by decide, by decide⟩

/-! Concrete states used to evaluate the handlers on explicit inputs. -/

def today0 : Date := ⟨2026, 10, 12⟩
def effA : EffUser := ⟨"7", "alice", "Alice Ant"⟩
def uA : User := ⟨1, "7", "alice", "Alice Ant"⟩
def d0 : DateTime := ⟨2026, 10, 12, 12, 0, 0⟩
def d13 : DateTime := ⟨2026, 10, 12, 13, 0, 0⟩
def d1230 : DateTime := ⟨2026, 10, 12, 12, 30, 0⟩
def d1130 : DateTime := ⟨2026, 10, 12, 11, 30, 0⟩
def args0 : Args := some (some d0, "Central")
def argsN : Args := some (some d13, "North")
def argsN2 : Args := some (some d1230, "North")

/-- One user, one active departure today, no tickets yet. -/
def dbC2 : DB := ⟨[uA], [⟨1, d0, "Central", 1, true⟩], [], 2, 2, 1⟩

/-- C2: the one-active-ticket-per-user-per-day invariant fails.  On a state holding
one departure today, the same user buys a ticket twice in a row: both calls succeed
and afterwards the user owns two active tickets for the current calendar day, because
the already-booked gate built on `get_user_ticket` never fires. -/
theorem double_booking_possible :
    replyOf (ticket today0 effA args0 dbC2) = some (.ticketBought "Central" 12 0) ∧
    replyOf (ticket today0 effA args0 (dbAfter (ticket today0 effA args0 dbC2) dbC2)) =
      some (.ticketBought "Central" 12 0) ∧
    (activeTicketsToday today0
      (dbAfter (ticket today0 effA args0 (dbAfter (ticket today0 effA args0 dbC2) dbC2))
        dbC2) 1).length = 2 := by decide

/-- User A already holds an active ticket on today's 12:00 Central departure; a
second departure at 13:00 North also exists. -/
def dbC4 : DB :=
  ⟨[uA], [⟨1, d0, "Central", 1, true⟩, ⟨2, d13, "North", 1, true⟩],
   [⟨1, 1, 1, true⟩], 2, 3, 2⟩

/-- C4: a user holding an active ticket for today is not rejected.  Instead of the
uniform already-booked answer, the reservation proceeds to the departure lookup and
succeeds, leaving the user with two active tickets. -/
theorem already_booked_check_inoperative :
    (activeTicketsToday today0 dbC4 1).length = 1 ∧
    replyOf (ticket today0 effA argsN dbC4) = some (.ticketBought "North" 13 0) ∧
    (activeTicketsToday today0 (dbAfter (ticket today0 effA argsN dbC4) dbC4) 1).length = 2 := by
  decide

/-- User A holds an active ticket on today's 12:00 Central departure; a 12:30 North
departure also exists for rebooking. -/
def dbC5 : DB :=
  ⟨[uA], [⟨1, d0, "Central", 1, true⟩, ⟨2, d1230, "North", 1, true⟩],
   [⟨1, 1, 1, true⟩], 2, 3, 2⟩

/-- C5: the revoke-then-rebook round trip does not behave as specified.  With an
active ticket held, revocation answers that no ticket is available and mutates
nothing, so the user never passes through the no-ticket state; the subsequent
reservation still succeeds and the user ends up with two active tickets. -/
theorem revoke_then_rebook_broken :
    (activeTicketsToday today0 dbC5 1).length = 1 ∧
    replyOf (revoke today0 effA dbC5) = some .noTicketToRevoke ∧
    dbAfter (revoke today0 effA dbC5) dbC5 = dbC5 ∧
    (activeTicketsToday today0
      (dbAfter (ticket today0 effA argsN2 (dbAfter (revoke today0 effA dbC5) dbC5))
        dbC5) 1).length = 2 := by decide

/-- User A holds an active ticket on today's 11:30 South departure. -/
def dbC6 : DB := ⟨[uA], [⟨1, d1130, "South", 1, true⟩], [⟨1, 1, 1, true⟩], 2, 2, 2⟩

/-- C6: revoking with an active ticket held for today does not deactivate it.  The
handler replies that no ticket is available and the ticket row keeps
`valid = true`; the state is completely unchanged. -/
theorem revoke_active_ticket_not_deactivated :
    (activeTicketsToday today0 dbC6 1).length = 1 ∧
    replyOf (revoke today0 effA dbC6) = some .noTicketToRevoke ∧
    ((dbAfter (revoke today0 effA dbC6) dbC6).tickets.filter (fun t => t.valid)).length = 1 ∧
    dbAfter (revoke today0 effA dbC6) dbC6 = dbC6 := by decide

/-- One known user, empty schedule. -/
def dbC1 : DB := ⟨[uA], [], [], 2, 1, 1⟩

/-- State after the first `add_departure 12:00 Central` on `dbC1`. -/
def dbC1a : DB := dbAfter (add_departure today0 effA args0 dbC1) dbC1

/-- State after repeating the identical `add_departure` call on `dbC1a`. -/
def dbC1b : DB := dbAfter (add_departure today0 effA args0 dbC1a) dbC1a

/-- C1 (counterexample): a schedule row with the requested `(date, station)` pair
already exists, yet the second identical `add_departure` call does not fail the
insert: afterwards two schedule rows carry the pair, so the handler inserted a
duplicate instead of rejecting and inserting nothing. -/
theorem add_departure_no_duplicate_check_cex :
    (journeysFor dbC1a.schedule d0 "Central").length = 1 ∧
    replyOf (add_departure today0 effA args0 dbC1a) = some .duplicateJourneys ∧
    (journeysFor dbC1b.schedule d0 "Central").length = 2 := by decide

/-- One user, one pre-existing departure at the slot about to be proposed, no
tickets. -/
def dbC8 : DB := ⟨[uA], [⟨1, d0, "Central", 1, true⟩], [], 2, 2, 1⟩

/-- C8 (counterexample): the proposer's `(date, station)` passes validation and the
departure row is created, the proposer holds no prior ticket, yet no auto-reservation
happens: the nested `ticket` call sees two matching journeys and rejects, so the
proposer ends up with no ticket at all. -/
theorem propose_duplicate_slot_no_auto_reserve_cex :
    dbC8.tickets = [] ∧
    parse_args today0 args0 = .success d0 "Central" ∧
    replyOf (add_departure today0 effA args0 dbC8) = some .duplicateJourneys ∧
    (dbAfter (add_departure today0 effA args0 dbC8) dbC8).tickets = [] := by decide

/-! Witness instantiations for the theorems carrying hypotheses. -/

def dbW1 : DB := ⟨[uA], [⟨1, d0, "Central", 1, true⟩], [], 2, 2, 1⟩

/-- Witness for C1's amended theorem at a concrete duplicate slot. -/
theorem add_departure_duplicate_slot_behavior_witness :
    ((userRows dbW1 effA.tid).length ≤ 1) ∧
    (parse_args today0 (some (some d0, "Central")) = .success d0 "Central") ∧
    (journeysFor dbW1.schedule d0 "Central" ≠ []) ∧
    (∃ (u : User) (db' : DB), get_user dbW1 effA = .ok (u, db') ∧
      db'.tickets = dbW1.tickets ∧ db'.schedule = dbW1.schedule ∧
      add_departure today0 effA (some (some d0, "Central")) dbW1 =
        .ok (.duplicateJourneys,
          { db' with schedule := db'.schedule ++ [⟨db'.nextSchedId, d0, "Central", u.id, true⟩],
                     nextSchedId := db'.nextSchedId + 1 })) :=
  ⟨by decide, by decide, by decide,
    add_departure_duplicate_slot_behavior today0 effA d0 "Central" dbW1
      (by decide) (by decide) (by decide)⟩

def dbW8 : DB := ⟨[uA], [], [], 2, 1, 1⟩

/-- Witness for C8's amended theorem at a concrete fresh slot. -/
theorem propose_fresh_slot_auto_reserves_witness :
    ((userRows dbW8 effA.tid).length ≤ 1) ∧
    (parse_args today0 (some (some d0, "Central")) = .success d0 "Central") ∧
    (journeysFor dbW8.schedule d0 "Central" = []) ∧
    (∃ (u : User) (db' : DB), get_user dbW8 effA = .ok (u, db') ∧ u.tid = effA.tid ∧
      db'.tickets = dbW8.tickets ∧ db'.nextSchedId = dbW8.nextSchedId ∧
      db'.nextTicketId = dbW8.nextTicketId ∧
      add_departure today0 effA (some (some d0, "Central")) dbW8 =
        .ok (.ticketBought "Central" d0.hour d0.minute,
          { db' with
            schedule := db'.schedule ++ [⟨db'.nextSchedId, d0, "Central", u.id, true⟩],
            nextSchedId := db'.nextSchedId + 1,
            tickets := db'.tickets ++ [⟨db'.nextTicketId, db'.nextSchedId, u.id, true⟩],
            nextTicketId := db'.nextTicketId + 1 })) :=
  ⟨by decide, by decide, by decide,
    propose_fresh_slot_auto_reserves today0 effA d0 "Central" dbW8
      (by decide) (by decide) (by decide)⟩

def dbW9 : DB := ⟨[], [], [], 1, 1, 1⟩

/-- Witness for C9's idempotence theorem at an empty state. -/
theorem get_user_idempotent_witness :
    ((userRows dbW9 effA.tid).length ≤ 1) ∧
    (∃ u db', get_user dbW9 effA = .ok (u, db') ∧ u.tid = effA.tid ∧
      userRows db' effA.tid = [u] ∧ get_user db' effA = .ok (u, db') ∧
      (userRows dbW9 effA.tid = [] →
        db'.users = dbW9.users ++
          [⟨dbW9.nextUserId, effA.tid, effA.username, effA.fullname⟩]) ∧
      (∀ v, userRows dbW9 effA.tid = [v] → u = v ∧ db' = dbW9)) :=
  ⟨by decide, get_user_idempotent dbW9 effA (by decide)⟩

def dbW10 : DB :=
  ⟨[uA], [⟨1, d0, "Central", 1, true⟩, ⟨2, d0, "Central", 1, true⟩], [], 2, 3, 1⟩

/-- Witness for C10's duplicate-journeys theorem on a state with two rows matching
the requested pair. -/
theorem ticket_duplicate_journeys_rejected_witness :
    ((userRows dbW10 effA.tid).length ≤ 1) ∧
    (parse_args today0 (some (some d0, "Central")) = .success d0 "Central") ∧
    (1 < (journeysFor dbW10.schedule d0 "Central").length) ∧
    (∃ db', ticket today0 effA (some (some d0, "Central")) dbW10 =
        .ok (.duplicateJourneys, db') ∧
      db'.tickets = dbW10.tickets ∧ db'.schedule = dbW10.schedule) :=
  ⟨by decide, by decide, by decide,
    ticket_duplicate_journeys_rejected today0 effA d0 "Central" dbW10
      (by decide) (by decide) (by decide)⟩

def dt1430 : DateTime := ⟨2026, 10, 12, 14, 30, 0⟩
def dt1431 : DateTime := ⟨2026, 10, 12, 14, 31, 0⟩
def dtOtherDay : DateTime := ⟨2026, 10, 13, 12, 0, 0⟩

/-- Witness for C3's window rules: 14:30:00 accepted, 14:31 rejected with the
booking-hours message, next-day noon rejected with the same-day message. -/
theorem parse_args_window_rules_witness :
    (parse_args today0 (some (some dt1430, "Central")) = .success dt1430 "Central") ∧
    (parse_args today0 (some (some dt1431, "Central")) = .failure .outsideHours) ∧
    (parse_args today0 (some (some dtOtherDay, "Central")) = .failure .outOfRange) :=
  ⟨(parse_args_window_rules today0 dt1430 "Central").1.mpr ⟨by decide, by decide⟩,
   (parse_args_window_rules today0 dt1431 "Central").2.1 (by decide) (by decide),
   (parse_args_window_rules today0 dtOtherDay "Central").2.2 (by decide)⟩

end Mensatrain
